import Mathlib

/-!
Shallow embedding of the fitness-tracker core (`src/app.js`) and proofs about it.

Conventions of the embedding:
* JavaScript numbers are modelled as `ℚ` where only rational arithmetic occurs
  (weights, distances, rates) and as `ℝ` where transcendental functions occur
  (acceleration magnitudes via `Math.sqrt`, the haversine formula).
* `Date.now()` timestamps are integer milliseconds (`ℤ`).
* Calendar-day keys (`'YYYY-MM-DD'` strings produced by `getTodayStr`) are
  modelled as integer day numbers (`Day := ℤ`); `d.setDate(d.getDate() ± k)`
  is day-number addition/subtraction.
* The module-level mutable variables of the walking tracker
  (`lastPosition`, `totalDistance`, `totalSteps`, `startTime`, `watchId`,
  `lastAccel`, `isStepInProgress`, `lastStepTime`, plus the subscription
  status of the `devicemotion` listener, the geolocation watch and the
  1 Hz interval) are gathered into one record `TrackerState`.
-/

/-- Calendar day, modelling the `'YYYY-MM-DD'` string keys of
`state.dailyWalking`; date arithmetic on such keys is integer arithmetic. -/
abbrev Day := ℤ

/-- One value of `state.dailyWalking`: `{ distance: 0, time: 0 }`. -/
structure DayRecord where
  distance : ℚ
  time : ℤ
  deriving DecidableEq

/-- The `state.dailyWalking` object: a partial map from day keys to records. -/
def DailyMap := Day → Option DayRecord

/-- The `event.accelerationIncludingGravity` payload (x, y, z in m/s²). -/
structure Accel where
  x : ℝ
  y : ℝ
  z : ℝ

/-- One `devicemotion` event: optional acceleration payload (the source checks
`if (!accel) return;`) together with the `Date.now()` value observed when the
handler runs. -/
structure MotionEvent where
  accel : Option Accel
  time : ℤ

/-- One geolocation fix as consumed by the `watchPosition` callback. -/
structure PositionEvent where
  latitude : ℝ
  longitude : ℝ
  accuracy : ℝ

/-- The module-level mutable state of the walking tracker (source lines
300–312): session totals, sensor-filter state and subscription status. -/
structure TrackerState where
  lastPosition : Option (ℝ × ℝ)
  totalDistance : ℚ
  totalSteps : ℕ
  startTime : Option ℤ
  watchId : Option ℕ
  lastAccel : ℝ
  isStepInProgress : Bool
  lastStepTime : ℤ
  motionListening : Bool
  geoWatching : Bool
  walkIntervalActive : Bool

/-- The initial values of the module-level variables at script load. -/
def initialState : TrackerState where
  lastPosition := none
  totalDistance := 0
  totalSteps := 0
  startTime := none
  watchId := none
  lastAccel := 0
  isStepInProgress := false
  lastStepTime := 0
  motionListening := false
  geoWatching := false
  walkIntervalActive := false

/-- `const STEP_THRESHOLD = 2.0`. -/
def STEP_THRESHOLD : ℝ := 2.0

/-- `const STEP_COOLDOWN = 300` (milliseconds). -/
def STEP_COOLDOWN : ℤ := 300

/-- `Math.sqrt(accel.x ** 2 + accel.y ** 2 + accel.z ** 2)`. -/
noncomputable def magnitude (x y z : ℝ) : ℝ :=
  Real.sqrt (x ^ 2 + y ^ 2 + z ^ 2)

/-- `state.user?.height || 170`: the user's height when present and truthy,
otherwise the fallback 170 (the value `0` is falsy in JavaScript). -/
def heightOr170 : Option ℚ → ℚ
  | none => 170
  | some h => if h = 0 then 170 else h

/-- `(state.user?.height || 170) * 0.415 / 100`: stride length in meters. -/
def strideLength (height? : Option ℚ) : ℚ :=
  heightOr170 height? * 0.415 / 100

/-- The step-firing condition of `handleMotion`:
`delta > STEP_THRESHOLD && !isStepInProgress && (now - lastStepTime) > STEP_COOLDOWN`,
evaluated against the state before the event (the source overwrites
`lastAccel` after computing `delta` and before this test, which leaves the
other three fields untouched). -/
def codeStepFires (s : TrackerState) (a : Accel) (t : ℤ) : Prop :=
  STEP_THRESHOLD < |magnitude a.x a.y a.z - s.lastAccel| ∧
  s.isStepInProgress = false ∧
  STEP_COOLDOWN < t - s.lastStepTime

/-- The step-firing condition as the specification words it: "at least a
cooldown interval (300 ms) has elapsed since the last detected step", i.e.
with a non-strict cooldown comparison where the source uses a strict one. -/
def specStepFires (s : TrackerState) (a : Accel) (t : ℤ) : Prop :=
  STEP_THRESHOLD < |magnitude a.x a.y a.z - s.lastAccel| ∧
  s.isStepInProgress = false ∧
  STEP_COOLDOWN ≤ t - s.lastStepTime

open Classical

/-- `handleMotion` (source lines 314–337). The source computes
`delta = |magnitude - lastAccel|`, then assigns `lastAccel = magnitude`
unconditionally, then branches; since the branch conditions only read
`delta`, `isStepInProgress` and `lastStepTime`, the embedding performs the
`lastAccel` update inside each branch with identical effect. -/
noncomputable def handleMotion (height? : Option ℚ) (s : TrackerState) :
    MotionEvent → TrackerState
  | ⟨none, _⟩ => s
  | ⟨some a, t⟩ =>
    if codeStepFires s a t then
      { s with
          lastAccel := magnitude a.x a.y a.z
          totalSteps := s.totalSteps + 1
          isStepInProgress := true
          lastStepTime := t
          totalDistance := s.totalDistance + strideLength height? / 1000 }
    else if |magnitude a.x a.y a.z - s.lastAccel| < STEP_THRESHOLD / 2 then
      { s with
          lastAccel := magnitude a.x a.y a.z
          isStepInProgress := false }
    else
      { s with lastAccel := magnitude a.x a.y a.z }

/-- Processing a finite stream of motion events in arrival order. -/
noncomputable def runMotion (height? : Option ℚ) (s : TrackerState)
    (events : List MotionEvent) : TrackerState :=
  events.foldl (handleMotion height?) s

/-- `Math.atan2(y, x)` on the reals. -/
noncomputable def atan2 (y x : ℝ) : ℝ :=
  if 0 < x then Real.arctan (y / x)
  else if x < 0 then
    (if 0 ≤ y then Real.arctan (y / x) + Real.pi
     else Real.arctan (y / x) - Real.pi)
  else
    (if 0 < y then Real.pi / 2
     else if y < 0 then -(Real.pi / 2)
     else 0)

/-- `calculateDistance` (source lines 356–365): haversine great-circle
distance in kilometers on a sphere of radius 6371 km. -/
noncomputable def calculateDistance (lat1 lon1 lat2 lon2 : ℝ) : ℝ :=
  let R : ℝ := 6371
  let dLat := (lat2 - lat1) * Real.pi / 180
  let dLon := (lon2 - lon1) * Real.pi / 180
  let a := Real.sin (dLat / 2) * Real.sin (dLat / 2) +
    Real.cos (lat1 * Real.pi / 180) * Real.cos (lat2 * Real.pi / 180) *
      Real.sin (dLon / 2) * Real.sin (dLon / 2)
  let c := 2 * atan2 (Real.sqrt a) (Real.sqrt (1 - a))
  R * c

/-- The `watchPosition` success callback installed by `startWalking`
(source lines 393–407): fixes with `accuracy > 30` are dropped by the early
`return`; otherwise the source computes `calculateDistance` against the
previous `lastPosition` and compares it with `0.005`, but the body of that
comparison is empty (the value is discarded), so the only effect is the
final `lastPosition = { lat: latitude, lng: longitude }` assignment. -/
noncomputable def positionCallback (s : TrackerState) (p : PositionEvent) :
    TrackerState :=
  if p.accuracy > 30 then s
  else { s with lastPosition := some (p.latitude, p.longitude) }

/-- Outcome of the `DeviceMotionEvent.requestPermission()` preamble of
`startWalking`: the platform may not expose the function at all
(`notRequired`), the returned promise may resolve to a state string
(`resolved`), or it may throw, in which case the source logs the error and
falls through (`threw`). -/
inductive PermOutcome
  | notRequired
  | resolved (result : String)
  | threw
  deriving DecidableEq

/-- `startWalking` aborts exactly when the permission request resolved to a
state other than `'granted'` (`permissionState !== 'granted'`). -/
def permissionDenied : PermOutcome → Bool
  | .resolved r => r != "granted"
  | _ => false

/-- The denial message shown by `startWalking` before its early `return`. -/
def permissionDeniedMsg : String :=
  "Motion sensor permission is required for indoor tracking."

/-- `startWalking` (source lines 367–411). On denial: alert and `return`
before any state is touched. Otherwise: reset the session totals and
`lastPosition`, subscribe the `devicemotion` listener, start the geolocation
watch when `navigator.geolocation` exists (assigning `watchId`), and start
the 1 Hz UI interval. The second component is the alert shown on denial. -/
def startWalking (perm : PermOutcome) (now : ℤ) (geoAvailable : Bool)
    (newWatchId : ℕ) (s : TrackerState) : TrackerState × Option String :=
  if permissionDenied perm then
    (s, some permissionDeniedMsg)
  else
    ({ s with
        totalDistance := 0
        totalSteps := 0
        startTime := some now
        lastPosition := none
        motionListening := true
        geoWatching := geoAvailable
        watchId := if geoAvailable then some newWatchId else s.watchId
        walkIntervalActive := true }, none)

/-- `stopWalking` (source lines 413–432): unsubscribe the interval, the
motion listener and the geolocation watch; compute
`elapsedSeconds = Math.floor((Date.now() - startTime) / 1000)`; create
`state.dailyWalking[today] = { distance: 0, time: 0 }` when absent; add the
session totals into that record. Returns the post-session tracker state, the
updated daily map, and the committed `(distance, elapsedSeconds)` summary. -/
def stopWalking (now : ℤ) (today : Day) (daily : DailyMap)
    (s : TrackerState) : TrackerState × DailyMap × ℚ × ℤ :=
  let s' := { s with
    walkIntervalActive := false
    motionListening := false
    geoWatching := false }
  let elapsedSeconds := Int.fdiv (now - s.startTime.getD 0) 1000
  let prev := (daily today).getD ⟨0, 0⟩
  let daily' : DailyMap := fun d =>
    if d = today then
      some ⟨prev.distance + s.totalDistance, prev.time + elapsedSeconds⟩
    else daily d
  (s', daily', s.totalDistance, elapsedSeconds)

/-- `Math.round` on a rational: round half toward positive infinity. -/
def jsRound (q : ℚ) : ℤ := ⌊q + 1 / 2⌋

/-- Goal progress percentage (source lines 540–552): `0` when
`initialWeight === target` (no division), otherwise
`Math.max(0, Math.min(100, Math.round(|initial - current| / |initial - target| * 100)))`. -/
def goalProgress (initialWeight target current : ℚ) : ℤ :=
  if initialWeight ≠ target then
    max 0 (min 100 (jsRound (|initialWeight - current| / |initialWeight - target| * 100)))
  else 0

/-- `state.user.pace === 'slow' ? 0.25 : 0.5` as used in `renderGoalSection`. -/
def weeklyRate (pace : String) : ℚ := if pace = "slow" then 0.25 else 0.5

/-- The three possible `estimated-time` texts of `renderGoalSection`
(source lines 569–575). -/
inductive GoalTimeMsg
  | weeksEstimate (weeks : ℤ)
  | maintainOvershoot
  | targetReached
  deriving DecidableEq

/-- Time-to-goal reporting (source lines 565–575): compute
`weeksLeft = Math.ceil(|current - target| / weeklyRate)`; report the weeks
estimate only when `current > target + 0.1`; report the
"You've reached your target" maintenance text when `current < target - 0.1`;
report "Target weight reached" inside the tolerance band. -/
def estimatedTimeMsg (current target : ℚ) (pace : String) : GoalTimeMsg :=
  let weeksLeft := ⌈|current - target| / weeklyRate pace⌉
  if current > target + 0.1 then .weeksEstimate weeksLeft
  else if current < target - 0.1 then .maintainOvershoot
  else .targetReached

/-- `state.user.pace === 'slow' ? 0.25 : 0.5` as used in `renderProgress`. -/
def pacePerWeek (pace : String) : ℚ := if pace = "slow" then 0.25 else 0.5

/-- One iteration of the weight-forecast loop (source lines 239–243): move
the projected value toward the target by the pace, clamped at the target;
leave it unchanged when it already equals the target. -/
def projectStep (targetWeight pace cur : ℚ) : ℚ :=
  if cur > targetWeight then max targetWeight (cur - pace)
  else if cur < targetWeight then min targetWeight (cur + pace)
  else cur

/-- The projected values pushed by `n` iterations of the forecast loop. -/
def projectForward (targetWeight pace cur : ℚ) : ℕ → List ℚ
  | 0 => []
  | n + 1 =>
    projectStep targetWeight pace cur ::
      projectForward targetWeight pace (projectStep targetWeight pace cur) n

/-- The four forecast points of `renderProgress` (source lines 226–248):
dates `lastDate + 7·i` for `i = 1..4` paired with the projected weights. -/
def weightForecast (lastDate : Day) (lastWeight targetWeight pace : ℚ) :
    List (Day × ℚ) :=
  (((List.range 4).map fun i : ℕ => lastDate + 7 * ((i : ℤ) + 1)).zip
    (projectForward targetWeight pace lastWeight 4))

/-- `state.dailyWalking[dStr]?.distance || 0`. -/
def dayDistance (daily : DailyMap) (d : Day) : ℚ :=
  ((daily d).getD ⟨0, 0⟩).distance

/-- The `actualData` array of `renderWalkForecast` (source lines 478–485):
the distances of the 7 days `today - 6, …, today`, missing days as 0. -/
def walkActual (today : Day) (daily : DailyMap) : List ℚ :=
  (List.range 7).map fun j : ℕ => dayDistance daily (today - 6 + (j : ℤ))

/-- The `forecastData` array of `renderWalkForecast` (source lines 468–500)
at chart time, with `Math.random()` modelled as an input stream
`rand : ℕ → ℚ` of values in `[0, 1)`: seven `null` slots, then three points
`avg + (rand i * 0.2 - 0.1)` where `avg` is the 7-day mean, then the
continuity-anchor overwrite `forecastData[6] = actualData[6]`. -/
def walkForecast (today : Day) (daily : DailyMap) (rand : ℕ → ℚ) :
    List (Option ℚ) :=
  let actualData := walkActual today daily
  let avg := actualData.sum / (actualData.length : ℚ)
  let forecastData := List.replicate 7 (none : Option ℚ) ++
    ((List.range 3).map fun i => some (avg + (rand i * 0.2 - 0.1)))
  forecastData.set 6 (some (actualData.getD 6 0))

/-- The tracker state of a just-started session used by concrete witnesses:
session begun at time 0 with 1 km accumulated. -/
def startedState : TrackerState :=
  { initialState with startTime := some 0, totalDistance := 1 }

/-- The tracker state at the end of the first session of the C10 scenario:
the motion filter last saw magnitude 12 and last stepped at t = 1000 ms. -/
def staleEndState : TrackerState :=
  { initialState with
      lastAccel := 12
      lastStepTime := 1000
      totalSteps := 5
      totalDistance := 3
      startTime := some 500 }

/-- State after the first sample (magnitude 3 at t = 700) of the C1
counterexample run: the step fired. -/
def cexS1 : TrackerState :=
  { initialState with
      lastAccel := 3
      totalSteps := 1
      isStepInProgress := true
      lastStepTime := 700
      totalDistance := initialState.totalDistance + strideLength (some 170) / 1000 }

/-- State after the second sample (magnitude 3 at t = 900): delta 0 cleared
the in-progress flag. -/
def cexS2 : TrackerState :=
  { initialState with
      lastAccel := 3
      totalSteps := 1
      isStepInProgress := false
      lastStepTime := 700
      totalDistance := initialState.totalDistance + strideLength (some 170) / 1000 }

lemma magnitude_axis (x : ℝ) (hx : 0 ≤ x) : magnitude x 0 0 = x := by
  rw [magnitude, show x ^ 2 + 0 ^ 2 + 0 ^ 2 = x ^ 2 by ring, Real.sqrt_sq hx]

lemma handleMotion_none (height? : Option ℚ) (s : TrackerState) (t : ℤ) :
    handleMotion height? s ⟨none, t⟩ = s := rfl

lemma handleMotion_fire (height? : Option ℚ) (s : TrackerState) (a : Accel)
    (t : ℤ) (h : codeStepFires s a t) :
    handleMotion height? s ⟨some a, t⟩ =
      { s with
          lastAccel := magnitude a.x a.y a.z
          totalSteps := s.totalSteps + 1
          isStepInProgress := true
          lastStepTime := t
          totalDistance := s.totalDistance + strideLength height? / 1000 } := by
  rw [handleMotion, if_pos h]

lemma handleMotion_clear (height? : Option ℚ) (s : TrackerState) (a : Accel)
    (t : ℤ) (h : ¬ codeStepFires s a t)
    (hc : |magnitude a.x a.y a.z - s.lastAccel| < STEP_THRESHOLD / 2) :
    handleMotion height? s ⟨some a, t⟩ =
      { s with
          lastAccel := magnitude a.x a.y a.z
          isStepInProgress := false } := by
  rw [handleMotion, if_neg h, if_pos hc]

lemma handleMotion_idle (height? : Option ℚ) (s : TrackerState) (a : Accel)
    (t : ℤ) (h : ¬ codeStepFires s a t)
    (hc : ¬ |magnitude a.x a.y a.z - s.lastAccel| < STEP_THRESHOLD / 2) :
    handleMotion height? s ⟨some a, t⟩ =
      { s with lastAccel := magnitude a.x a.y a.z } := by
  rw [handleMotion, if_neg h, if_neg hc]

lemma projectForward_length (targetWeight pace : ℚ) (n : ℕ) :
    ∀ c, (projectForward targetWeight pace c n).length = n := by
  induction n with
  | zero => intro c; rfl
  | succ k ih => intro c; simp [projectForward, ih]

lemma projectForward_zero (targetWeight pace c : ℚ) :
    projectForward targetWeight pace c 0 = [] := rfl

lemma projectForward_succ (targetWeight pace c : ℚ) (n : ℕ) :
    projectForward targetWeight pace c (n + 1) =
      projectStep targetWeight pace c ::
        projectForward targetWeight pace (projectStep targetWeight pace c) n :=
  rfl

lemma walkActual_explicit (today : Day) (daily : DailyMap) :
    walkActual today daily =
      [dayDistance daily (today - 6), dayDistance daily (today - 5),
       dayDistance daily (today - 4), dayDistance daily (today - 3),
       dayDistance daily (today - 2), dayDistance daily (today - 1),
       dayDistance daily today] := by
  rw [walkActual, show List.range 7 = [0, 1, 2, 3, 4, 5, 6] from rfl]
  simp only [List.map_cons, List.map_nil, List.cons.injEq, and_true]
  refine ⟨?_, ?_, ?_, ?_, ?_, ?_, ?_⟩ <;> (congr 1; push_cast; ring)

lemma replicate_set_six (L : List (Option ℚ)) (v : Option ℚ) :
    (List.replicate 7 (none : Option ℚ) ++ L).set 6 v =
      List.replicate 6 none ++ v :: L := rfl

/-- C1 (amended): per accelerometer sample, `handleMotion` leaves the state
unchanged on samples without acceleration data; otherwise it always updates
the previous magnitude, increments the step counter and adds exactly
`(height_cm × 0.415 / 100) / 1000` km (height 170 cm when the user's height
is unknown) precisely when delta exceeds 2.0, no step is in progress, and
**strictly more than** 300 ms (not "at least 300 ms", as the claim says)
have elapsed since the last detected step; when no step fires, the
in-progress flag clears exactly when delta falls below 1.0 and is otherwise
unchanged. Quantifying over every state `s` covers every finite sample
sequence processed while a session runs. -/
theorem C1_step_detector (height? : Option ℚ) (s : TrackerState)
    (e : MotionEvent) :
    (e.accel = none → handleMotion height? s e = s) ∧
    (∀ a : Accel, e.accel = some a →
      (handleMotion height? s e).lastAccel = magnitude a.x a.y a.z ∧
      (codeStepFires s a e.time →
        (handleMotion height? s e).totalSteps = s.totalSteps + 1 ∧
        (handleMotion height? s e).totalDistance =
          s.totalDistance + heightOr170 height? * 0.415 / 100 / 1000 ∧
        (handleMotion height? s e).isStepInProgress = true ∧
        (handleMotion height? s e).lastStepTime = e.time) ∧
      (¬ codeStepFires s a e.time →
        (handleMotion height? s e).totalSteps = s.totalSteps ∧
        (handleMotion height? s e).totalDistance = s.totalDistance ∧
        (handleMotion height? s e).lastStepTime = s.lastStepTime ∧
        (|magnitude a.x a.y a.z - s.lastAccel| < STEP_THRESHOLD / 2 →
          (handleMotion height? s e).isStepInProgress = false) ∧
        (¬ |magnitude a.x a.y a.z - s.lastAccel| < STEP_THRESHOLD / 2 →
          (handleMotion height? s e).isStepInProgress = s.isStepInProgress))) ∧
    heightOr170 none = 170 := by
  obtain ⟨acc, t⟩ := e
  cases acc with
  | none =>
    refine ⟨fun _ => rfl, fun a ha => absurd ha (by simp), rfl⟩
  | some a0 =>
    refine ⟨fun h => absurd h (by simp), fun a ha => ?_, rfl⟩
    injection ha with ha'
    subst ha'
    by_cases hf : codeStepFires s a0 t
    · rw [handleMotion_fire height? s a0 t hf]
      exact ⟨rfl, fun _ => ⟨rfl, rfl, rfl, rfl⟩, fun hnf => absurd hf hnf⟩
    · by_cases hc : |magnitude a0.x a0.y a0.z - s.lastAccel| < STEP_THRESHOLD / 2
      · rw [handleMotion_clear height? s a0 t hf hc]
        exact ⟨rfl, fun hfp => absurd hfp hf,
          fun _ => ⟨rfl, rfl, rfl, fun _ => rfl, fun hcn => absurd hc hcn⟩⟩
      · rw [handleMotion_idle height? s a0 t hf hc]
        exact ⟨rfl, fun hfp => absurd hfp hf,
          fun _ => ⟨rfl, rfl, rfl, fun hcp => absurd hcp hc, fun _ => rfl⟩⟩

/-- C1 witness: a sample without acceleration data at the initial state
changes nothing. -/
theorem C1_step_detector_witness :
    handleMotion (some 170) initialState ⟨none, 0⟩ = initialState :=
  (C1_step_detector (some 170) initialState ⟨none, 0⟩).1 rfl

/-- C1 counterexample to the claim as stated: after a detected step at
t = 700 ms and a flag-clearing quiet sample at t = 900 ms, the sample of
magnitude 7 at t = 1000 ms satisfies the claim's firing condition (delta
4 > 2.0, no step in progress, exactly 300 ms — "at least 300 ms" — since
the last detected step), yet the step counter stays at 1 because the source
requires strictly more than 300 ms. -/
theorem C1_cooldown_counterexample :
    specStepFires
      (runMotion (some 170) initialState
        [⟨some ⟨3, 0, 0⟩, 700⟩, ⟨some ⟨3, 0, 0⟩, 900⟩]) ⟨7, 0, 0⟩ 1000 ∧
    (runMotion (some 170) initialState
      [⟨some ⟨3, 0, 0⟩, 700⟩, ⟨some ⟨3, 0, 0⟩, 900⟩]).totalSteps = 1 ∧
    (runMotion (some 170) initialState
      [⟨some ⟨3, 0, 0⟩, 700⟩, ⟨some ⟨3, 0, 0⟩, 900⟩,
       ⟨some ⟨7, 0, 0⟩, 1000⟩]).totalSteps = 1 := by
  have hm3 : magnitude 3 0 0 = 3 := magnitude_axis 3 (by norm_num)
  have hm7 : magnitude 7 0 0 = 7 := magnitude_axis 7 (by norm_num)
  have hfire1 : codeStepFires initialState ⟨3, 0, 0⟩ 700 := by
    refine ⟨?_, rfl, by decide⟩
    show STEP_THRESHOLD < |magnitude 3 0 0 - initialState.lastAccel|
    rw [hm3, show initialState.lastAccel = (0 : ℝ) from rfl, sub_zero,
      abs_of_nonneg (by norm_num : (0 : ℝ) ≤ 3), STEP_THRESHOLD]
    norm_num
  have h1 : handleMotion (some 170) initialState ⟨some ⟨3, 0, 0⟩, 700⟩ = cexS1 := by
    rw [handleMotion_fire _ _ _ _ hfire1]
    simp [cexS1, initialState, hm3]
  have hnofire2 : ¬ codeStepFires cexS1 ⟨3, 0, 0⟩ 900 := by
    intro h
    simp [codeStepFires, cexS1] at h
  have hclear2 : |magnitude 3 0 0 - cexS1.lastAccel| < STEP_THRESHOLD / 2 := by
    rw [hm3, show cexS1.lastAccel = (3 : ℝ) from rfl, sub_self, abs_zero,
      STEP_THRESHOLD]
    norm_num
  have h2 : runMotion (some 170) initialState
      [⟨some ⟨3, 0, 0⟩, 700⟩, ⟨some ⟨3, 0, 0⟩, 900⟩] = cexS2 := by
    show handleMotion (some 170)
        (handleMotion (some 170) initialState ⟨some ⟨3, 0, 0⟩, 700⟩)
        ⟨some ⟨3, 0, 0⟩, 900⟩ = cexS2
    rw [h1, handleMotion_clear _ _ _ _ hnofire2 hclear2]
    simp [cexS1, cexS2, initialState, hm3]
  have hnofire3 : ¬ codeStepFires cexS2 ⟨7, 0, 0⟩ 1000 := by
    intro h
    have hcool := h.2.2
    rw [show cexS2.lastStepTime = (700 : ℤ) from rfl, STEP_COOLDOWN] at hcool
    norm_num at hcool
  have hnoclear3 : ¬ |magnitude 7 0 0 - cexS2.lastAccel| < STEP_THRESHOLD / 2 := by
    rw [hm7, show cexS2.lastAccel = (3 : ℝ) from rfl,
      show (7 : ℝ) - 3 = 4 from by norm_num,
      abs_of_nonneg (by norm_num : (0 : ℝ) ≤ 4), STEP_THRESHOLD]
    norm_num
  refine ⟨?_, ?_, ?_⟩
  · rw [h2]
    refine ⟨?_, rfl, by decide⟩
    show STEP_THRESHOLD < |magnitude 7 0 0 - cexS2.lastAccel|
    rw [hm7, show cexS2.lastAccel = (3 : ℝ) from rfl,
      show (7 : ℝ) - 3 = 4 from by norm_num,
      abs_of_nonneg (by norm_num : (0 : ℝ) ≤ 4), STEP_THRESHOLD]
    norm_num
  · rw [h2]
    rfl
  · show (handleMotion (some 170)
        (handleMotion (some 170)
          (handleMotion (some 170) initialState ⟨some ⟨3, 0, 0⟩, 700⟩)
          ⟨some ⟨3, 0, 0⟩, 900⟩)
        ⟨some ⟨7, 0, 0⟩, 1000⟩).totalSteps = 1
    rw [show handleMotion (some 170)
        (handleMotion (some 170) initialState ⟨some ⟨3, 0, 0⟩, 700⟩)
        ⟨some ⟨3, 0, 0⟩, 900⟩ = cexS2 from h2]
    rw [handleMotion_idle _ _ _ _ hnofire3 hnoclear3]
    rfl

/-- C2: the weight forecast is exactly 4 points at +7, +14, +21, +28 days
from the last actual date; each point moves the previous projected value
toward the target by exactly the pace, clamps at the target without
overshooting (and holds there), and stays constant when already equal to the
target; last weight 80, target 70, normal pace yields 79.5, 79.0, 78.5, 78.0
and last weight 70.3, target 70, normal pace yields 70.0, 70.0, 70.0, 70.0. -/
theorem C2_weight_forecast :
    (∀ (d : Day) (w t p : ℚ),
      (weightForecast d w t p).map Prod.fst = [d + 7, d + 14, d + 21, d + 28]) ∧
    (∀ (d : Day) (w t p : ℚ),
      (weightForecast d w t p).map Prod.snd = projectForward t p w 4) ∧
    (∀ t p c : ℚ,
      (c = t → projectStep t p c = c) ∧
      (c > t → t ≤ c - p → projectStep t p c = c - p) ∧
      (c > t → c - p < t → projectStep t p c = t) ∧
      (c < t → c + p ≤ t → projectStep t p c = c + p) ∧
      (c < t → t < c + p → projectStep t p c = t)) ∧
    (weightForecast 0 80 70 (pacePerWeek "normal")).map Prod.snd
      = [79.5, 79, 78.5, 78] ∧
    (weightForecast 0 70.3 70 (pacePerWeek "normal")).map Prod.snd
      = [70, 70, 70, 70] := by
  have hp : pacePerWeek "normal" = 0.5 := by
    rw [pacePerWeek, if_neg (by decide : ¬ ("normal" : String) = "slow")]
  refine ⟨fun d w t p => ?_, fun d w t p => ?_, fun t p c => ?_, ?_, ?_⟩
  · have hl : ((List.range 4).map fun i : ℕ => d + 7 * ((i : ℤ) + 1)).length ≤
        (projectForward t p w 4).length := by
      rw [List.length_map, List.length_range, projectForward_length t p 4 w]
    rw [weightForecast, List.map_fst_zip _ _ hl]
    rw [show List.range 4 = [0, 1, 2, 3] from rfl]
    norm_num
  · have hl : (projectForward t p w 4).length ≤
        ((List.range 4).map fun i : ℕ => d + 7 * ((i : ℤ) + 1)).length := by
      rw [List.length_map, List.length_range, projectForward_length t p 4 w]
    rw [weightForecast, List.map_snd_zip _ _ hl]
  · refine ⟨fun h => by simp [projectStep, h], fun h h' => ?_, fun h h' => ?_,
      fun h h' => ?_, fun h h' => ?_⟩
    · rw [projectStep, if_pos h, max_eq_right h']
    · rw [projectStep, if_pos h, max_eq_left h'.le]
    · rw [projectStep, if_neg (lt_asymm h), if_pos h, min_eq_right h']
    · rw [projectStep, if_neg (lt_asymm h), if_pos h, min_eq_left h'.le]
  · have e1 : projectStep 70 (0.5 : ℚ) 80 = 79.5 := by
      rw [projectStep, if_pos (by norm_num : (80 : ℚ) > 70),
        max_eq_right (by norm_num : (70 : ℚ) ≤ 80 - 0.5)]
      norm_num
    have e2 : projectStep 70 (0.5 : ℚ) 79.5 = 79 := by
      rw [projectStep, if_pos (by norm_num : (79.5 : ℚ) > 70),
        max_eq_right (by norm_num : (70 : ℚ) ≤ 79.5 - 0.5)]
      norm_num
    have e3 : projectStep 70 (0.5 : ℚ) 79 = 78.5 := by
      rw [projectStep, if_pos (by norm_num : (79 : ℚ) > 70),
        max_eq_right (by norm_num : (70 : ℚ) ≤ 79 - 0.5)]
      norm_num
    have e4 : projectStep 70 (0.5 : ℚ) 78.5 = 78 := by
      rw [projectStep, if_pos (by norm_num : (78.5 : ℚ) > 70),
        max_eq_right (by norm_num : (70 : ℚ) ≤ 78.5 - 0.5)]
      norm_num
    have hl : (projectForward 70 (pacePerWeek "normal") 80 4).length ≤
        ((List.range 4).map fun i : ℕ => (0 : ℤ) + 7 * ((i : ℤ) + 1)).length := by
      rw [List.length_map, List.length_range, projectForward_length _ _ 4 _]
    rw [weightForecast, List.map_snd_zip _ _ hl, hp]
    rw [show (4 : ℕ) = 3 + 1 from rfl, projectForward_succ, e1,
      show (3 : ℕ) = 2 + 1 from rfl, projectForward_succ, e2,
      show (2 : ℕ) = 1 + 1 from rfl, projectForward_succ, e3,
      show (1 : ℕ) = 0 + 1 from rfl, projectForward_succ, e4,
      projectForward_zero]
  · have f1 : projectStep 70 (0.5 : ℚ) 70.3 = 70 := by
      rw [projectStep, if_pos (by norm_num : (70.3 : ℚ) > 70),
        max_eq_left (by norm_num : (70.3 : ℚ) - 0.5 ≤ 70)]
    have f2 : projectStep 70 (0.5 : ℚ) 70 = 70 := by
      rw [projectStep, if_neg (lt_irrefl (70 : ℚ)), if_neg (lt_irrefl (70 : ℚ))]
    have hl : (projectForward 70 (pacePerWeek "normal") 70.3 4).length ≤
        ((List.range 4).map fun i : ℕ => (0 : ℤ) + 7 * ((i : ℤ) + 1)).length := by
      rw [List.length_map, List.length_range, projectForward_length _ _ 4 _]
    rw [weightForecast, List.map_snd_zip _ _ hl, hp]
    rw [show (4 : ℕ) = 3 + 1 from rfl, projectForward_succ, f1,
      show (3 : ℕ) = 2 + 1 from rfl, projectForward_succ, f2,
      show (2 : ℕ) = 1 + 1 from rfl, projectForward_succ, f2,
      show (1 : ℕ) = 0 + 1 from rfl, projectForward_succ, f2,
      projectForward_zero]

/-- C2 witness: the clamp conjunct applied at target 70, pace 0.5, current
80 (no overshoot, moves by exactly the pace). -/
theorem C2_weight_forecast_witness :
    projectStep 70 (1 / 2) 80 = 80 - 1 / 2 :=
  (C2_weight_forecast.2.2.1 70 (1 / 2) 80).2.1 (by norm_num) (by norm_num)

/-- C3: `stopWalking` computes elapsed whole seconds since start and merges
(distance, elapsed seconds) additively into the daily record of the current
day, creating it with zeros first when absent; two stops on the same day sum
both sessions' contributions; records of other days are unchanged. -/
theorem C3_stop_merges (now st : ℤ) (today : Day) (daily : DailyMap)
    (s : TrackerState) (hst : s.startTime = some st) :
    (stopWalking now today daily s).2.2.2 = Int.fdiv (now - st) 1000 ∧
    (stopWalking now today daily s).2.1 today =
      some ⟨((daily today).getD ⟨0, 0⟩).distance + s.totalDistance,
            ((daily today).getD ⟨0, 0⟩).time + Int.fdiv (now - st) 1000⟩ ∧
    (daily today = none →
      (stopWalking now today daily s).2.1 today =
        some ⟨0 + s.totalDistance, 0 + Int.fdiv (now - st) 1000⟩) ∧
    (∀ d : Day, d ≠ today → (stopWalking now today daily s).2.1 d = daily d) ∧
    (∀ (now₂ st₂ : ℤ) (s₂ : TrackerState), s₂.startTime = some st₂ →
      (stopWalking now₂ today (stopWalking now today daily s).2.1 s₂).2.1 today =
        some ⟨((daily today).getD ⟨0, 0⟩).distance + s.totalDistance
                + s₂.totalDistance,
              ((daily today).getD ⟨0, 0⟩).time + Int.fdiv (now - st) 1000
                + Int.fdiv (now₂ - st₂) 1000⟩) := by
  refine ⟨by simp [stopWalking, hst], by simp [stopWalking, hst],
    fun h => by simp [stopWalking, hst, h], fun d hd => by simp [stopWalking, hd],
    fun now₂ st₂ s₂ h₂ => by simp [stopWalking, hst, h₂]⟩

/-- C3 witness: stopping at t = 5000 ms a session started at 0 with 1 km on
an empty history creates the day record (1 km, 5 s). -/
theorem C3_stop_merges_witness :
    (stopWalking 5000 0 (fun _ => none) startedState).2.1 0 = some ⟨1, 5⟩ := by
  have h := (C3_stop_merges 5000 0 0 (fun _ => none) startedState rfl).2.1
  simpa [startedState, initialState] using h

/-- C4: a position fix never changes the committed distance total or the
step count; a fix with accuracy worse than 30 m changes nothing at all; a
fix with accuracy at most 30 m updates only the last-known position. -/
theorem C4_position_fix (s : TrackerState) (p : PositionEvent) :
    (positionCallback s p).totalDistance = s.totalDistance ∧
    (positionCallback s p).totalSteps = s.totalSteps ∧
    (p.accuracy > 30 → positionCallback s p = s) ∧
    (p.accuracy ≤ 30 →
      positionCallback s p =
        { s with lastPosition := some (p.latitude, p.longitude) }) := by
  by_cases h : p.accuracy > 30
  · exact ⟨by simp [positionCallback, h], by simp [positionCallback, h],
      fun _ => by simp [positionCallback, h],
      fun h' => absurd h (not_lt.mpr h')⟩
  · exact ⟨by simp [positionCallback, h], by simp [positionCallback, h],
      fun h' => absurd h' h, fun _ => by simp [positionCallback, h]⟩

/-- C4 witness: a fix with 50 m accuracy leaves the initial state unchanged. -/
theorem C4_position_fix_witness :
    positionCallback initialState ⟨1, 2, 50⟩ = initialState :=
  (C4_position_fix initialState ⟨1, 2, 50⟩).2.2.1 (by norm_num)

/-- C5: goal progress is 0 when the initial weight equals the target (no
division), otherwise the rounded ratio of achieved change to required
change, clamped to [0, 100]; initial 90, target 70, current 80 gives 50;
initial = target = 65 gives 0 for every current weight. -/
theorem C5_goal_progress :
    (∀ i t c : ℚ, goalProgress i t c =
      if i = t then 0
      else min 100 (max 0 (jsRound (|i - c| / |i - t| * 100)))) ∧
    goalProgress 90 70 80 = 50 ∧
    (∀ c : ℚ, goalProgress 65 65 c = 0) := by
  refine ⟨fun i t c => ?_, ?_, fun c => by simp [goalProgress]⟩
  · by_cases h : i = t
    · simp [goalProgress, h]
    · rw [goalProgress, if_pos h, if_neg h]
      simp only [max_def, min_def]
      split_ifs <;> omega
  · rw [goalProgress, if_pos (by norm_num : (90 : ℚ) ≠ 70)]
    norm_num [jsRound, max_def, min_def]

/-- C6 (amended): the weeks estimate `⌈|current - target| / weekly_rate⌉` is
reported exactly when `current > target + 0.1` (still needs to lose); when
`current < target - 0.1` (past the target from above, or a gain-style goal)
or within the 0.1 kg band, a goal-reached / maintain message is reported. -/
theorem C6_time_to_goal (current target : ℚ) (pace : String) :
    (current > target + 0.1 →
      estimatedTimeMsg current target pace =
        GoalTimeMsg.weeksEstimate ⌈|current - target| / weeklyRate pace⌉) ∧
    (current < target - 0.1 →
      estimatedTimeMsg current target pace = GoalTimeMsg.maintainOvershoot) ∧
    (¬ current > target + 0.1 → ¬ current < target - 0.1 →
      estimatedTimeMsg current target pace = GoalTimeMsg.targetReached) := by
  refine ⟨fun h => ?_, fun h => ?_, fun h1 h2 => ?_⟩
  · simp [estimatedTimeMsg, h]
  · have h' : ¬ current > target + 0.1 := by
      rw [not_lt]
      linarith
    simp [estimatedTimeMsg, h, h']
  · simp [estimatedTimeMsg, h1, h2]

/-- C6 witness: current 75, target 70, normal pace reports the weeks
estimate. -/
theorem C6_time_to_goal_witness :
    estimatedTimeMsg 75 70 "normal" =
      GoalTimeMsg.weeksEstimate ⌈|(75 : ℚ) - 70| / weeklyRate "normal"⌉ ∧
    (75 : ℚ) > 70 + 0.1 :=
  ⟨(C6_time_to_goal 75 70 "normal").1 (by norm_num), by norm_num⟩

/-- C6 counterexample: current 60, target 70 is farther from the target than
the 0.1 kg band on the still-needs-to-gain side, yet the code reports the
maintenance message ("You've reached your target"), not the weeks estimate
(which would be ⌈10 / 0.5⌉ = 20). -/
theorem C6_gain_side_counterexample :
    (60 : ℚ) < 70 - 0.1 ∧
    estimatedTimeMsg 60 70 "normal" = GoalTimeMsg.maintainOvershoot ∧
    estimatedTimeMsg 60 70 "normal" ≠
      GoalTimeMsg.weeksEstimate ⌈|(60 : ℚ) - 70| / weeklyRate "normal"⌉ := by
  have he : estimatedTimeMsg 60 70 "normal" = GoalTimeMsg.maintainOvershoot := by
    simp only [estimatedTimeMsg]
    rw [if_neg (by norm_num), if_pos (by norm_num)]
  exact ⟨by norm_num, he, by rw [he]; simp⟩

/-- C7: when the platform requires a motion-permission grant and it resolves
to anything other than `'granted'`, `startWalking` returns before touching
any state: the tracker state (totals, start time, position, every
subscription flag) is exactly what it was, and the caller is notified by the
synchronously shown alert. -/
theorem C7_permission_denied (perm : PermOutcome) (now : ℤ) (geo : Bool)
    (wid : ℕ) (s : TrackerState) (hd : permissionDenied perm = true) :
    startWalking perm now geo wid s = (s, some permissionDeniedMsg) := by
  simp [startWalking, hd]

/-- C7 witness: a permission request resolving to `'denied'` on the initial
state aborts with the alert and the state unchanged. -/
theorem C7_permission_denied_witness :
    startWalking (PermOutcome.resolved "denied") 0 false 0 initialState =
      (initialState, some permissionDeniedMsg) :=
  C7_permission_denied (PermOutcome.resolved "denied") 0 false 0 initialState
    (by decide)

/-- C8: the walking forecast takes the arithmetic mean of the last 7
calendar days (missing days as 0) and emits 3 forward points of the form
mean + jitter with jitter = rand·0.2 − 0.1 ∈ [−0.1, +0.1) for rand ∈ [0, 1);
the forecast series' value at the last actual day (index 6) equals the last
actual observed value exactly. -/
theorem C8_walk_forecast (today : Day) (daily : DailyMap) (rand : ℕ → ℚ) :
    walkForecast today daily rand =
      List.replicate 6 none ++
        some (dayDistance daily today) ::
          ((List.range 3).map fun i =>
            some ((walkActual today daily).sum / 7 + (rand i * 0.2 - 0.1))) ∧
    (walkActual today daily).length = 7 ∧
    (∀ i : ℕ, 0 ≤ rand i → rand i < 1 →
      -(0.1 : ℚ) ≤ rand i * 0.2 - 0.1 ∧ rand i * 0.2 - 0.1 < 0.1) := by
  have hlen : (walkActual today daily).length = 7 := by
    rw [walkActual, List.length_map, List.length_range]
  have hgetD : (walkActual today daily).getD 6 0 = dayDistance daily today := by
    rw [walkActual_explicit]
    rfl
  refine ⟨?_, hlen, fun i h0 h1 => ⟨by linarith, by linarith⟩⟩
  have hW : walkForecast today daily rand =
      (List.replicate 7 (none : Option ℚ) ++
        ((List.range 3).map fun i =>
          some ((walkActual today daily).sum /
              ((walkActual today daily).length : ℚ) +
            (rand i * 0.2 - 0.1)))).set 6
        (some ((walkActual today daily).getD 6 0)) := rfl
  rw [hW, hgetD, hlen, replicate_set_six]
  norm_num

/-- C8 witness: with the random stream constantly 1/2 the jitter bound
hypotheses hold and give jitter 0 within [−0.1, +0.1). -/
theorem C8_walk_forecast_witness :
    -(0.1 : ℚ) ≤ (1 : ℚ) / 2 * 0.2 - 0.1 ∧ (1 : ℚ) / 2 * 0.2 - 0.1 < 0.1 :=
  (C8_walk_forecast 0 (fun _ => none) (fun _ => 1 / 2)).2.2 0
    (by norm_num) (by norm_num)

/-- C9: the haversine distance is symmetric in its two coordinate pairs, and
the distance from any point to itself is 0. -/
theorem C9_distance_symm_self :
    (∀ lat1 lon1 lat2 lon2 : ℝ,
      calculateDistance lat1 lon1 lat2 lon2 =
        calculateDistance lat2 lon2 lat1 lon1) ∧
    (∀ lat lon : ℝ, calculateDistance lat lon lat lon = 0) := by
  constructor
  · intro l1 o1 l2 o2
    simp only [calculateDistance]
    have h1 : (l1 - l2) * Real.pi / 180 / 2 = -((l2 - l1) * Real.pi / 180 / 2) := by
      ring
    have h2 : (o1 - o2) * Real.pi / 180 / 2 = -((o2 - o1) * Real.pi / 180 / 2) := by
      ring
    have ha : Real.sin ((l1 - l2) * Real.pi / 180 / 2) *
          Real.sin ((l1 - l2) * Real.pi / 180 / 2) +
          Real.cos (l2 * Real.pi / 180) * Real.cos (l1 * Real.pi / 180) *
          Real.sin ((o1 - o2) * Real.pi / 180 / 2) *
          Real.sin ((o1 - o2) * Real.pi / 180 / 2) =
        Real.sin ((l2 - l1) * Real.pi / 180 / 2) *
          Real.sin ((l2 - l1) * Real.pi / 180 / 2) +
          Real.cos (l1 * Real.pi / 180) * Real.cos (l2 * Real.pi / 180) *
          Real.sin ((o2 - o1) * Real.pi / 180 / 2) *
          Real.sin ((o2 - o1) * Real.pi / 180 / 2) := by
      rw [h1, h2, Real.sin_neg, Real.sin_neg]
      ring
    rw [ha]
  · intro lat lon
    simp only [calculateDistance, sub_self, zero_mul, zero_div, Real.sin_zero,
      mul_zero, add_zero, zero_add, Real.sqrt_zero, sub_zero, Real.sqrt_one]
    rw [atan2, if_pos (by norm_num : (0 : ℝ) < 1)]
    norm_num [Real.arctan_zero]

/-- C10: starting a session (permission granted or not required) resets only
the session totals, start time and last-known position; the motion filter's
`lastAccel`, `isStepInProgress` and `lastStepTime` survive untouched.
Consequently, after `staleEndState` (previous session ended at magnitude
12), the very first sample of the next session — magnitude 1, a value whose
delta against a fresh `lastAccel` of 0 would be 1 < 2.0 — fires a step from
the stale comparison |1 − 12| = 11 > 2.0. -/
theorem C10_start_keeps_stale_filter :
    (∀ (perm : PermOutcome) (now : ℤ) (geo : Bool) (wid : ℕ)
        (s : TrackerState), permissionDenied perm = false →
      (startWalking perm now geo wid s).1.lastAccel = s.lastAccel ∧
      (startWalking perm now geo wid s).1.isStepInProgress =
        s.isStepInProgress ∧
      (startWalking perm now geo wid s).1.lastStepTime = s.lastStepTime ∧
      (startWalking perm now geo wid s).1.totalDistance = 0 ∧
      (startWalking perm now geo wid s).1.totalSteps = 0 ∧
      (startWalking perm now geo wid s).1.startTime = some now ∧
      (startWalking perm now geo wid s).1.lastPosition = none) ∧
    (handleMotion (some 170)
      (startWalking PermOutcome.notRequired 100000 false 0 staleEndState).1
      ⟨some ⟨1, 0, 0⟩, 100500⟩).totalSteps = 1 ∧
    |magnitude 1 0 0 - initialState.lastAccel| < STEP_THRESHOLD := by
  have hm1 : magnitude 1 0 0 = 1 := magnitude_axis 1 (by norm_num)
  refine ⟨fun perm now geo wid s hd => ?_, ?_, ?_⟩
  · rw [startWalking, if_neg (by simp [hd])]
    exact ⟨rfl, rfl, rfl, rfl, rfl, rfl, rfl⟩
  · have hstart : (startWalking PermOutcome.notRequired 100000 false 0
        staleEndState).1 =
        { staleEndState with
            totalDistance := 0
            totalSteps := 0
            startTime := some 100000
            lastPosition := none
            motionListening := true
            geoWatching := false
            walkIntervalActive := true } := by
      rw [startWalking, if_neg (by simp [permissionDenied])]
      simp
    have hfire : codeStepFires
        ({ staleEndState with
            totalDistance := 0
            totalSteps := 0
            startTime := some 100000
            lastPosition := none
            motionListening := true
            geoWatching := false
            walkIntervalActive := true }) ⟨1, 0, 0⟩ 100500 := by
      refine ⟨?_, rfl, by decide⟩
      show STEP_THRESHOLD <
        |magnitude 1 0 0 - (staleEndState.lastAccel : ℝ)|
      rw [hm1, show staleEndState.lastAccel = (12 : ℝ) from rfl,
        show (1 : ℝ) - 12 = -11 from by norm_num, abs_neg,
        abs_of_nonneg (by norm_num : (0 : ℝ) ≤ 11), STEP_THRESHOLD]
      norm_num
    rw [hstart, handleMotion_fire _ _ _ _ hfire]
  · rw [hm1, show initialState.lastAccel = (0 : ℝ) from rfl, sub_zero,
      abs_of_nonneg (by norm_num : (0 : ℝ) ≤ 1), STEP_THRESHOLD]
    norm_num

/-- C10 witness: starting from `staleEndState` with no permission step keeps
the stale filter magnitude and resets the step count. -/
theorem C10_start_keeps_stale_filter_witness :
    (startWalking PermOutcome.notRequired 0 false 0 staleEndState).1.lastAccel
        = staleEndState.lastAccel ∧
    (startWalking PermOutcome.notRequired 0 false 0
        staleEndState).1.totalSteps = 0 :=
  ⟨(C10_start_keeps_stale_filter.1 PermOutcome.notRequired 0 false 0
      staleEndState rfl).1,
   (C10_start_keeps_stale_filter.1 PermOutcome.notRequired 0 false 0
      staleEndState rfl).2.2.2.2.1⟩
